import Mathlib

/-!
Verification of the Ultralight GPU command/resource synchronization bridge
(headers under Ultralight/platform/GPUDriver.h and the C API mirror
CAPI_GPUDriver.h) against its natural-language specification.

The development has three parts:
1. a byte-layout model of the boundary structs, embedding the field lists and
   the pragma pack(push, 1) regions exactly as they appear in the two headers;
2. a model of the synchronization protocol, the id allocator, the backend
   texture contract and the projection helper.  The repository ships only the
   interface headers, so these operational parts are modelled from the
   specification and from the contracts stated in the header doc comments;
3. theorems settling the individual claims.
-/

namespace Ultralight

/-! ### Byte layout of the boundary structs -/

/-- One declared struct field: element size and natural alignment in bytes,
and the array element count (1 for scalar fields).  Sizes follow the LP64
platforms the headers target: uint32_t, int and float are 4 bytes, bool,
unsigned char and uint8_t-based enums are 1 byte, pointers are 8 bytes. -/
structure Field where
  name : String
  size : Nat
  align : Nat
  count : Nat
deriving DecidableEq

/-- A uint32_t field. -/
def u32 (n : String) : Field := ⟨n, 4, 4, 1⟩

/-- An array of float (count elements). -/
def f32s (n : String) (c : Nat) : Field := ⟨n, 4, 4, c⟩

/-- An array of unsigned char (count elements). -/
def u8s (n : String) (c : Nat) : Field := ⟨n, 1, 1, c⟩

/-- A bool field (one byte). -/
def boolField (n : String) : Field := ⟨n, 1, 1, 1⟩

/-- A single-byte enum field (enum class based on uint8_t, or unsigned char). -/
def u8enum (n : String) : Field := ⟨n, 1, 1, 1⟩

/-- A pointer field (8 bytes on the 64-bit targets). -/
def ptr64 (n : String) : Field := ⟨n, 8, 8, 1⟩

/-- Total bytes occupied by one field. -/
def Field.byteSize (f : Field) : Nat := f.size * f.count

/-- Size of a struct under pragma pack(1): the plain sum of the declared
field widths, with no padding anywhere. -/
def packedSize (fs : List Field) : Nat := (fs.map Field.byteSize).sum

/-- Round an offset up to the next multiple of the alignment. -/
def alignUp (off a : Nat) : Nat := if a = 0 then off else ((off + a - 1) / a) * a

/-- Layout step under default (natural) alignment: place one field after the
current end offset, inserting padding to reach its alignment, and track the
maximal field alignment. -/
def layoutStep (acc : Nat × Nat) (f : Field) : Nat × Nat :=
  (alignUp acc.1 f.align + f.byteSize, max acc.2 f.align)

/-- Size of a struct under default alignment: fields padded to their natural
alignment, total size rounded up to the struct alignment. -/
def naturalSize (fs : List Field) : Nat :=
  let e := fs.foldl layoutStep (0, 1)
  alignUp e.1 e.2

/-- Natural alignment of a struct: the maximum alignment of its fields. -/
def naturalAlign (fs : List Field) : Nat := (fs.foldl layoutStep (0, 1)).2

/-- Fields of struct RenderBuffer (GPUDriver.h) and of the C API typedef
ULRenderBuffer (CAPI_GPUDriver.h); the two declarations list the same
members in the same order. -/
def RenderBuffer_fields : List Field :=
  [u32 "texture_id", u32 "width", u32 "height",
   boolField "has_stencil_buffer", boolField "has_depth_buffer"]

/-- Fields of struct Vertex_2f_4ub_2f / ULVertex_2f_4ub_2f, the layout for
path vertices. -/
def Vertex_2f_4ub_2f_fields : List Field :=
  [f32s "pos" 2, u8s "color" 4, f32s "obj" 2]

/-- Fields of struct Vertex_2f_4ub_2f_2f_28f / ULVertex_2f_4ub_2f_2f_28f, the
layout for quad vertices. -/
def Vertex_2f_4ub_2f_2f_28f_fields : List Field :=
  [f32s "pos" 2, u8s "color" 4, f32s "tex" 2, f32s "obj" 2,
   f32s "data0" 4, f32s "data1" 4, f32s "data2" 4, f32s "data3" 4,
   f32s "data4" 4, f32s "data5" 4, f32s "data6" 4]

/-- Fields of struct GPUState / ULGPUState.  Matrix4x4 / ULMatrix4x4 is
float data[16], vec4 / ULvec4 is float value[4], IntRect / ULIntRect is four
int members; the layouts of the C++ and C declarations coincide member for
member. -/
def GPUState_fields : List Field :=
  [u32 "viewport_width", u32 "viewport_height",
   f32s "transform" 16,
   boolField "enable_texturing", boolField "enable_blend",
   u8enum "shader_type",
   u32 "render_buffer_id",
   u32 "texture_1_id", u32 "texture_2_id", u32 "texture_3_id",
   f32s "uniform_scalar" 8,
   f32s "uniform_vector" 32,
   u8s "clip_size" 1,
   f32s "clip" 128,
   boolField "enable_scissor",
   ⟨"scissor_rect", 4, 4, 4⟩]

/-- Fields of struct Command (GPUDriver.h).  The nested GPUState is itself
declared in the pack(1) region, so it contributes its packed size with
alignment 1. -/
def Command_fields : List Field :=
  [u8enum "command_type",
   ⟨"gpu_state", packedSize GPUState_fields, 1, 1⟩,
   u32 "geometry_id", u32 "indices_count", u32 "indices_offset"]

/-- Fields of the C API typedef ULCommand (CAPI_GPUDriver.h).  There the
nested ULGPUState is declared outside any pack(1) region, so it contributes
its naturally aligned size and alignment. -/
def ULCommand_fields : List Field :=
  [u8enum "command_type",
   ⟨"gpu_state", naturalSize GPUState_fields, naturalAlign GPUState_fields, 1⟩,
   u32 "geometry_id", u32 "indices_count", u32 "indices_offset"]

/-- Fields of struct CommandList / ULCommandList: a count plus a pointer to
the raw command array. -/
def CommandList_fields : List Field :=
  [u32 "size", ptr64 "commands"]

/-- Fields of struct VertexBuffer (GPUDriver.h): VertexBufferFormat is an
enum class based on uint8_t. -/
def VertexBuffer_fields : List Field :=
  [u8enum "format", u32 "size", ptr64 "data"]

/-- Fields of the C API typedef ULVertexBuffer: ULVertexBufferFormat is a
plain C enum, represented as int. -/
def ULVertexBuffer_fields : List Field :=
  [⟨"format", 4, 4, 1⟩, u32 "size", ptr64 "data"]

/-- Fields of struct IndexBuffer / ULIndexBuffer. -/
def IndexBuffer_fields : List Field :=
  [u32 "size", ptr64 "data"]

/-- One item of a header, as far as struct packing is concerned: a
pragma pack(push, 1), a pragma pack(pop), or a struct declaration. -/
inductive HeaderItem
  | packPush1 : HeaderItem
  | packPop : HeaderItem
  | decl (name : String) (fields : List Field) : HeaderItem
deriving DecidableEq

/-- The struct declarations and pack pragmas of GPUDriver.h in source order:
a single pack(push, 1) at the top of the namespace covers every struct, with
the matching pack(pop) after CommandList. -/
def gpuDriverHeader : List HeaderItem :=
  [HeaderItem.packPush1,
   HeaderItem.decl "RenderBuffer" RenderBuffer_fields,
   HeaderItem.decl "Vertex_2f_4ub_2f" Vertex_2f_4ub_2f_fields,
   HeaderItem.decl "Vertex_2f_4ub_2f_2f_28f" Vertex_2f_4ub_2f_2f_28f_fields,
   HeaderItem.decl "VertexBuffer" VertexBuffer_fields,
   HeaderItem.decl "IndexBuffer" IndexBuffer_fields,
   HeaderItem.decl "GPUState" GPUState_fields,
   HeaderItem.decl "Command" Command_fields,
   HeaderItem.decl "CommandList" CommandList_fields,
   HeaderItem.packPop]

/-- The struct declarations and pack pragmas of CAPI_GPUDriver.h in source
order: ULRenderBuffer is declared before the pack(push, 1), the pragma region
covers only the two vertex layouts, and ULGPUState, ULCommand and
ULCommandList follow the pack(pop). -/
def capiGPUDriverHeader : List HeaderItem :=
  [HeaderItem.decl "ULRenderBuffer" RenderBuffer_fields,
   HeaderItem.packPush1,
   HeaderItem.decl "ULVertex_2f_4ub_2f" Vertex_2f_4ub_2f_fields,
   HeaderItem.decl "ULVertex_2f_4ub_2f_2f_28f" Vertex_2f_4ub_2f_2f_28f_fields,
   HeaderItem.packPop,
   HeaderItem.decl "ULVertexBuffer" ULVertexBuffer_fields,
   HeaderItem.decl "ULIndexBuffer" IndexBuffer_fields,
   HeaderItem.decl "ULMatrix4x4" [f32s "data" 16],
   HeaderItem.decl "ULvec4" [f32s "value" 4],
   HeaderItem.decl "ULGPUState" GPUState_fields,
   HeaderItem.decl "ULCommand" ULCommand_fields,
   HeaderItem.decl "ULCommandList" CommandList_fields]

/-- Walk a header keeping the stack of active pack pragmas and report, for
the first declaration with the given name, whether it is declared under
one-byte packing. -/
def declaredPackedAux : List Nat → List HeaderItem → String → Option Bool
  | _, [], _ => none
  | st, HeaderItem.packPush1 :: rest, n => declaredPackedAux (1 :: st) rest n
  | [], HeaderItem.packPop :: rest, n => declaredPackedAux [] rest n
  | _ :: st, HeaderItem.packPop :: rest, n => declaredPackedAux st rest n
  | st, HeaderItem.decl m _ :: rest, n =>
      if m = n then some (st.headD 0 == 1) else declaredPackedAux st rest n

/-- Whether the named struct is declared with one-byte struct alignment in
the given header. -/
def declaredPacked (h : List HeaderItem) (n : String) : Bool :=
  (declaredPackedAux [] h n).getD false

/-- Field list of the named struct in the given header. -/
def findFields : List HeaderItem → String → List Field
  | [], _ => []
  | HeaderItem.decl m fs :: rest, n => if m = n then fs else findFields rest n
  | _ :: rest, n => findFields rest n

/-- Compiled size of the named struct in the given header: the packed size
when it is declared under pack(1), the naturally aligned size otherwise. -/
def structSize (h : List HeaderItem) (n : String) : Nat :=
  if declaredPacked h n then packedSize (findFields h n)
  else naturalSize (findFields h n)

/-! ### Vertex layout and shader pairing -/

/-- Vertex buffer formats, from enum class VertexBufferFormat. -/
inductive VertexBufferFormat
  | _2f_4ub_2f
  | _2f_4ub_2f_2f_28f
deriving DecidableEq

/-- Shader program types, from enum class ShaderType. -/
inductive ShaderType
  | Fill
  | FillPath
deriving DecidableEq

/-- The two kinds of geometry the compositor emits. -/
inductive GeometryKind
  | quadGeometry
  | pathGeometry
deriving DecidableEq

/-- Which geometry kind each vertex format carries, from the doc comments on
VertexBufferFormat: _2f_4ub_2f is used for path rendering and
_2f_4ub_2f_2f_28f is used for quad rendering, and from the struct doc
comments (vertex layout for path vertices, vertex layout for quad
vertices). -/
def vertexFormatGeometry : VertexBufferFormat → GeometryKind
  | VertexBufferFormat._2f_4ub_2f => GeometryKind.pathGeometry
  | VertexBufferFormat._2f_4ub_2f_2f_28f => GeometryKind.quadGeometry

/-- Which geometry kind each shader program fills, from the doc comments on
ShaderType: Fill is the shader program for filling quad geometry, FillPath
the shader program for filling tesselated path geometry. -/
def shaderGeometry : ShaderType → GeometryKind
  | ShaderType.Fill => GeometryKind.quadGeometry
  | ShaderType.FillPath => GeometryKind.pathGeometry

/-- The in-memory layout named by each vertex buffer format, from the doc
comments on the VertexBufferFormat enumerators. -/
def vertexFormatLayout : VertexBufferFormat → List Field
  | VertexBufferFormat._2f_4ub_2f => Vertex_2f_4ub_2f_fields
  | VertexBufferFormat._2f_4ub_2f_2f_28f => Vertex_2f_4ub_2f_2f_28f_fields

/-- A vertex format is consumed by a shader program when the geometry kind
the format carries is the geometry kind the program fills. -/
def consumedBy (f : VertexBufferFormat) (s : ShaderType) : Prop :=
  shaderGeometry s = vertexFormatGeometry f

instance (f : VertexBufferFormat) (s : ShaderType) : Decidable (consumedBy f s) := by
  unfold consumedBy; infer_instance

/-! ### Value model of the bridge data types

The repository ships only the interface headers; the compositor that calls a
GPUDriver and the backends that implement one are outside it.  The value
types below embed the header structs, with each float32 value represented by
its 32-bit pattern so that equality of values is equality of bits. -/

/-- A 4x4 float matrix: sixteen float32 bit patterns (struct ULMatrix4x4,
float data[16]). -/
structure Matrix4x4 where
  data : List Nat
deriving DecidableEq

/-- A 4-component float vector (struct ULvec4, float value[4]). -/
structure vec4 where
  value : List Nat
deriving DecidableEq

/-- An integer rectangle (struct ULIntRect, four int members). -/
structure IntRect where
  left : Int
  top : Int
  right : Int
  bottom : Int
deriving DecidableEq

/-- The state of the GPU for one draw command (struct GPUState). -/
structure GPUState where
  viewport_width : Nat
  viewport_height : Nat
  transform : Matrix4x4
  enable_texturing : Bool
  enable_blend : Bool
  shader_type : ShaderType
  render_buffer_id : Nat
  texture_1_id : Nat
  texture_2_id : Nat
  texture_3_id : Nat
  uniform_scalar : List Nat
  uniform_vector : List vec4
  clip_size : Nat
  clip : List Matrix4x4
  enable_scissor : Bool
  scissor_rect : IntRect
deriving DecidableEq

/-- The types of commands (enum class CommandType). -/
inductive CommandType
  | ClearRenderBuffer
  | DrawGeometry
deriving DecidableEq

/-- A command to execute on the GPU (struct Command). -/
structure Command where
  command_type : CommandType
  gpu_state : GPUState
  geometry_id : Nat
  indices_count : Nat
  indices_offset : Nat
deriving DecidableEq

/-- Render buffer description (struct RenderBuffer). -/
structure RenderBuffer where
  texture_id : Nat
  width : Nat
  height : Nat
  has_stencil_buffer : Bool
  has_depth_buffer : Bool
deriving DecidableEq

/-- A bitmap as the bridge consumes it: dimensions plus an optionally
allocated pixel buffer (class Bitmap).  The pixels field is none when no
pixel buffer has been allocated. -/
structure BitmapModel where
  width : Nat
  height : Nat
  pixels : Option (List Nat)
deriving DecidableEq

/-- Whether the bitmap is empty.  Modelled from the doc comment on
Bitmap.IsEmpty in Bitmap.h: whether or not this Bitmap is empty (no pixels
allocated). -/
def BitmapModel.IsEmpty (b : BitmapModel) : Bool := b.pixels.isNone

/-- Vertex buffer description (struct VertexBuffer): a format tag plus the
raw bytes; the size member of the struct is the byte count. -/
structure VertexBufferData where
  format : VertexBufferFormat
  bytes : List Nat
deriving DecidableEq

/-- Index buffer description (struct IndexBuffer): the raw bytes of an array
of 32-bit indices. -/
structure IndexBufferData where
  bytes : List Nat
deriving DecidableEq

/-! ### The synchronization protocol -/

/-- The resource mutation calls of the GPUDriver interface. -/
inductive Mutation
  | createTexture (texture_id : Nat) (bitmap : BitmapModel)
  | updateTexture (texture_id : Nat) (bitmap : BitmapModel)
  | destroyTexture (texture_id : Nat)
  | createRenderBuffer (render_buffer_id : Nat) (buffer : RenderBuffer)
  | destroyRenderBuffer (render_buffer_id : Nat)
  | createGeometry (geometry_id : Nat) (vertices : VertexBufferData) (indices : IndexBufferData)
  | updateGeometry (geometry_id : Nat) (vertices : VertexBufferData) (indices : IndexBufferData)
  | destroyGeometry (geometry_id : Nat)
deriving DecidableEq

/-- The calls the library makes into a GPUDriver during Renderer.Render. -/
inductive DriverCall
  | beginSynchronize
  | endSynchronize
  | mutate (m : Mutation)
  | updateCommandList (commands : List Command)
deriving DecidableEq

/-- Wellformedness of a GPUState as the library produces it.  Modelled from
the spec: clip_size is at most 8 and the clip stack is the fixed C array
Matrix4x4 clip[8]. -/
def wellFormedState (s : GPUState) : Bool :=
  decide (s.clip_size ≤ 8) && (s.clip.length == 8)

/-- Wellformedness of a command: its GPU state snapshot is wellformed. -/
def wellFormedCommand (c : Command) : Bool := wellFormedState c.gpu_state

/-- Wellformedness of a mutation as the library produces it.  Modelled from
the doc comments on RenderBuffer: has_stencil_buffer and has_depth_buffer
are currently unused, always false. -/
def wellFormedMutation : Mutation → Bool
  | Mutation.createRenderBuffer _ b => !b.has_stencil_buffer && !b.has_depth_buffer
  | _ => true

/-- The protocol state.  Modelled from the spec: Idle outside a
synchronization cycle; inside a cycle the state records whether the cycle
has already delivered its command list. -/
inductive SyncState
  | idle
  | mutating
  | delivered
deriving DecidableEq

/-- One step of the synchronization protocol.  Modelled from the spec:
BeginSynchronize is legal only when Idle (it is not reentrant); resource
mutations occur only while Synchronizing and before the command list of the
cycle; exactly one UpdateCommandList per cycle, still while Synchronizing;
EndSynchronize closes a cycle after its command list was delivered. -/
def protoStep : SyncState → DriverCall → Option SyncState
  | SyncState.idle, DriverCall.beginSynchronize => some SyncState.mutating
  | SyncState.mutating, DriverCall.mutate m =>
      if wellFormedMutation m then some SyncState.mutating else none
  | SyncState.mutating, DriverCall.updateCommandList l =>
      if l.all wellFormedCommand then some SyncState.delivered else none
  | SyncState.delivered, DriverCall.endSynchronize => some SyncState.idle
  | _, _ => none

/-- Run the protocol over a list of calls, failing as soon as a call is
illegal in the current state. -/
def protoRun : SyncState → List DriverCall → Option SyncState
  | s, [] => some s
  | s, c :: t =>
      match protoStep s c with
      | some s' => protoRun s' t
      | none => none

/-- A trace of driver calls is accepted when it runs from Idle back to
Idle. -/
def Accepted (t : List DriverCall) : Prop :=
  protoRun SyncState.idle t = some SyncState.idle

instance (t : List DriverCall) : Decidable (Accepted t) := by
  unfold Accepted; infer_instance

/-- The command lists delivered by the UpdateCommandList calls of a trace,
in order. -/
def deliveredLists (t : List DriverCall) : List (List Command) :=
  t.filterMap fun c =>
    match c with
    | DriverCall.updateCommandList l => some l
    | _ => none

/-- One synchronization cycle: the resource mutations of the cycle and the
command list it delivers. -/
structure SyncCycle where
  mutations : List Mutation
  commands : List Command
deriving DecidableEq

/-- The calls of one cycle: BeginSynchronize, the mutations, one
UpdateCommandList, EndSynchronize. -/
def SyncCycle.calls (c : SyncCycle) : List DriverCall :=
  DriverCall.beginSynchronize ::
    (c.mutations.map DriverCall.mutate ++
      [DriverCall.updateCommandList c.commands, DriverCall.endSynchronize])

/-- The concatenated calls of a list of cycles. -/
def cyclesCalls (cs : List SyncCycle) : List DriverCall :=
  (cs.map SyncCycle.calls).flatten

/-- Wellformedness of one cycle: every mutation and every delivered command
is wellformed. -/
def SyncCycle.WF (c : SyncCycle) : Prop :=
  (∀ m ∈ c.mutations, wellFormedMutation m = true) ∧
    c.commands.all wellFormedCommand = true

/-- What remains of an accepted trace from each protocol state: from Idle, a
sequence of whole cycles; from the mutating state, the tail of the current
cycle starting with its remaining mutations; from the delivered state, the
closing EndSynchronize followed by whole cycles. -/
def RemShape : SyncState → List DriverCall → Prop
  | SyncState.idle, t =>
      ∃ cs : List SyncCycle, t = cyclesCalls cs ∧ ∀ c ∈ cs, c.WF
  | SyncState.mutating, t =>
      ∃ (ms : List Mutation) (l : List Command) (cs : List SyncCycle),
        (∀ m ∈ ms, wellFormedMutation m = true) ∧
        l.all wellFormedCommand = true ∧
        (∀ c ∈ cs, SyncCycle.WF c) ∧
        t = ms.map DriverCall.mutate ++
          DriverCall.updateCommandList l :: DriverCall.endSynchronize :: cyclesCalls cs
  | SyncState.delivered, t =>
      ∃ cs : List SyncCycle,
        (∀ c ∈ cs, SyncCycle.WF c) ∧
        t = DriverCall.endSynchronize :: cyclesCalls cs

/-! ### The resource id allocator -/

/-- The three resource kinds with independent id counters. -/
inductive ResourceKind
  | texture
  | renderBuffer
  | geometry
deriving DecidableEq

/-- The id allocator state.  Modelled from the spec: one monotonically
incrementing counter per resource kind, each starting so that the first
issued id is 1. -/
structure IdAllocator where
  texture_counter : Nat
  render_buffer_counter : Nat
  geometry_counter : Nat
deriving DecidableEq

/-- The allocator at process start: no id issued yet. -/
def IdAllocator.init : IdAllocator := ⟨0, 0, 0⟩

/-- The counter of one resource kind. -/
def counterOf (a : IdAllocator) : ResourceKind → Nat
  | ResourceKind.texture => a.texture_counter
  | ResourceKind.renderBuffer => a.render_buffer_counter
  | ResourceKind.geometry => a.geometry_counter

/-- Modelled from the spec: NextTextureId, NextRenderBufferId and
NextGeometryId each increment the counter of their own kind and return the
new value, so ids start at 1 and 0 is never issued. -/
def nextId (a : IdAllocator) : ResourceKind → Nat × IdAllocator
  | ResourceKind.texture =>
      (a.texture_counter + 1, { a with texture_counter := a.texture_counter + 1 })
  | ResourceKind.renderBuffer =>
      (a.render_buffer_counter + 1,
        { a with render_buffer_counter := a.render_buffer_counter + 1 })
  | ResourceKind.geometry =>
      (a.geometry_counter + 1, { a with geometry_counter := a.geometry_counter + 1 })

/-- Run a sequence of Next calls, returning the issued ids in order and the
final allocator state. -/
def runNextIds (a : IdAllocator) : List ResourceKind → List Nat × IdAllocator
  | [] => ([], a)
  | k :: ks =>
      let p := nextId a k
      let q := runNextIds p.2 ks
      (p.1 :: q.1, q.2)

/-! ### Backend execution model -/

/-- What a conforming backend stores for a texture id.  Modelled from the
spec: an empty source bitmap yields a render-target-capable texture with no
pixel upload; a non-empty bitmap yields a texture holding a deep copy of the
pixels. -/
inductive TextureStorage
  | rtt
  | pixelBytes (bytes : List Nat)
deriving DecidableEq

/-- The private native-object table of a backend: textures and render
buffers by id. -/
structure BackendState where
  textures : List (Nat × TextureStorage)
  renderBuffers : List (Nat × RenderBuffer)
deriving DecidableEq

/-- A backend with no resources. -/
def BackendState.emptyState : BackendState := ⟨[], []⟩

/-- Modelled from the spec: the CreateTexture contract.  If the bitmap is
empty (Bitmap.IsEmpty), allocate an RTT texture and read no pixel data;
otherwise deep-copy the pixel data before returning.  The second component
of the result is the pixel data the call read from the bitmap. -/
def backendCreateTexture (st : BackendState) (texture_id : Nat) (bitmap : BitmapModel) :
    BackendState × List Nat :=
  if bitmap.IsEmpty then
    ({ st with textures := (texture_id, TextureStorage.rtt) :: st.textures }, [])
  else
    let copied := bitmap.pixels.getD []
    ({ st with textures := (texture_id, TextureStorage.pixelBytes copied) :: st.textures },
      copied)

/-- Modelled from the spec: CreateRenderBuffer records the render buffer
description under its id. -/
def backendCreateRenderBuffer (st : BackendState) (render_buffer_id : Nat)
    (buffer : RenderBuffer) : BackendState :=
  { st with renderBuffers := (render_buffer_id, buffer) :: st.renderBuffers }

/-- Errors the backend execution model can report. -/
inductive ExecError
  | missingRenderBuffer
  | missingTexture
deriving DecidableEq

/-- Modelled from the spec: executing a ClearRenderBuffer command looks up
the target render buffer and its backing texture and clears the target.  The
result is the pixel data the execution read from texture storage; a clear
writes the target and reads nothing. -/
def execClearRenderBuffer (st : BackendState) (render_buffer_id : Nat) :
    Except ExecError (List Nat) :=
  match st.renderBuffers.lookup render_buffer_id with
  | none => Except.error ExecError.missingRenderBuffer
  | some buf =>
      match st.textures.lookup buf.texture_id with
      | none => Except.error ExecError.missingTexture
      | some _ => Except.ok []

/-- The render buffer a command targets. -/
def rbOf (c : Command) : Nat := c.gpu_state.render_buffer_id

/-- A fixed command used as the out-of-range default when indexing a command
list. -/
def dfltCommand : Command :=
  ⟨CommandType.ClearRenderBuffer,
    ⟨0, 0, ⟨List.replicate 16 0⟩, false, false, ShaderType.Fill, 0, 0, 0, 0,
      List.replicate 8 0, List.replicate 8 ⟨List.replicate 4 0⟩, 0,
      List.replicate 8 ⟨List.replicate 16 0⟩, false, ⟨0, 0, 0, 0⟩⟩,
    0, 0, 0⟩

/-- The sequence of commands a backend executes under a schedule of list
indices. -/
def execution (l : List Command) (sched : List Nat) : List Command :=
  sched.map fun i => l.getD i dfltCommand

/-- Modelled from the spec: a conforming backend executes every command of
the list exactly once, and two commands targeting the same render buffer
execute in list order.  The schedule is the order of list indices the
backend chooses. -/
def ConformingSchedule (l : List Command) (sched : List Nat) : Prop :=
  List.Perm sched (List.range l.length) ∧
    sched.Pairwise fun i j =>
      rbOf (l.getD i dfltCommand) = rbOf (l.getD j dfltCommand) → i < j

/-- The clip matrices a command execution passes to the pixel shader.
Modelled from the spec: clip matrices at indices at or beyond clip_size are
undefined and must be ignored, so execution consumes exactly the first
clip_size entries. -/
def shaderClipUniforms (s : GPUState) : List Matrix4x4 :=
  s.clip.take s.clip_size

/-! ### The projection helper -/

/-- Modelled from the spec: the orthographic projection matrix for a
viewport of the given pixel dimensions, origin top-left with x right and y
down; with flip_y false the viewport top edge maps to clip y = 1, with
flip_y true the y axis is flipped.  Scalars are exact rationals so that
equality of results is bit-level equality of the mathematical values. -/
def orthographicProjection (w h : ℚ) (flip_y : Bool) : Matrix (Fin 4) (Fin 4) ℚ :=
  Matrix.of
    ![![2 / w, 0, 0, -1],
      ![0, if flip_y then 2 / h else -(2 / h), 0, if flip_y then -1 else 1],
      ![0, 0, 1, 0],
      ![0, 0, 0, 1]]

/-- Modelled from the spec: ulApplyProjection sets up the orthographic
projection matrix for the viewport and multiplies it by the transform,
written here entry by entry as an implementation would compute the product
rows. -/
def ulApplyProjection (transform : Matrix (Fin 4) (Fin 4) ℚ)
    (viewport_width viewport_height : ℚ) (flip_y : Bool) :
    Matrix (Fin 4) (Fin 4) ℚ :=
  Matrix.of
    ![fun j => 2 / viewport_width * transform 0 j + (-1) * transform 3 j,
      fun j =>
        (if flip_y then 2 / viewport_height else -(2 / viewport_height)) * transform 1 j +
          (if flip_y then (-1 : ℚ) else 1) * transform 3 j,
      fun j => transform 2 j,
      fun j => transform 3 j]

/-! ### Concrete values used by the witnesses -/

/-- A sixteen-entry matrix value. -/
def exMatrix : Matrix4x4 := ⟨List.replicate 16 0⟩

/-- A wellformed GPU state targeting a given render buffer. -/
def exState (rb : Nat) : GPUState :=
  ⟨800, 600, exMatrix, true, true, ShaderType.Fill, rb, 1, 0, 0,
    List.replicate 8 0, List.replicate 8 ⟨List.replicate 4 0⟩, 8,
    List.replicate 8 exMatrix, false, ⟨0, 0, 800, 600⟩⟩

/-- A clear command against a given render buffer. -/
def exClear (rb : Nat) : Command :=
  ⟨CommandType.ClearRenderBuffer, exState rb, 0, 0, 0⟩

/-- A draw command against a given render buffer and geometry. -/
def exDraw (rb geom : Nat) : Command :=
  ⟨CommandType.DrawGeometry, exState rb, geom, 6, 0⟩

/-- A complete synchronization cycle used as a concrete accepted trace. -/
def exTrace : List DriverCall :=
  [DriverCall.beginSynchronize,
   DriverCall.mutate (Mutation.createTexture 1 ⟨0, 0, none⟩),
   DriverCall.mutate (Mutation.createRenderBuffer 1 ⟨1, 800, 600, false, false⟩),
   DriverCall.updateCommandList [exClear 1, exDraw 1 1],
   DriverCall.endSynchronize]

/-! ### Theorems -/

/-- C1, counterexample: the quad vertex layout Vertex_2f_4ub_2f_2f_28f sums
its declared field widths (pos 8, color 4, tex 8, obj 8, data0 to data6 at
16 bytes each) to 140 bytes, not the 132 bytes the claim states. -/
theorem quad_vertex_size_counterexample :
    packedSize Vertex_2f_4ub_2f_2f_28f_fields = 140 ∧
      ¬ packedSize Vertex_2f_4ub_2f_2f_28f_fields = 132 := by
  decide

/-- C1, amended: the packed size of Vertex_2f_4ub_2f is exactly 20 bytes and
the packed size of Vertex_2f_4ub_2f_2f_28f is exactly 140 bytes, each being
the plain sum of the declared field widths with no padding, and these are
the compiled sizes in the header, whose pack(1) region covers both
structs. -/
theorem vertex_layout_sizes :
    packedSize Vertex_2f_4ub_2f_fields = 20 ∧
    packedSize Vertex_2f_4ub_2f_2f_28f_fields = 140 ∧
    structSize gpuDriverHeader "Vertex_2f_4ub_2f" = packedSize Vertex_2f_4ub_2f_fields ∧
    structSize gpuDriverHeader "Vertex_2f_4ub_2f_2f_28f" =
      packedSize Vertex_2f_4ub_2f_2f_28f_fields := by
  decide

/-- C2, counterexample: in the C API header the pack(push, 1) region covers
only the two vertex layouts; ULRenderBuffer is declared before it, so it is
not one-byte packed and its compiled size is 16 bytes, not the 14-byte sum
of its field widths. -/
theorem capi_renderbuffer_packing_counterexample :
    declaredPacked capiGPUDriverHeader "ULRenderBuffer" = false ∧
    structSize capiGPUDriverHeader "ULRenderBuffer" = 16 ∧
    packedSize RenderBuffer_fields = 14 := by
  decide

/-- C2, amended: in the C++ header all six boundary structs are declared
inside the pack(1) region and their sizes are the plain sums of their field
widths; in the C API header only the two vertex layouts are inside the
pack(1) region, while ULRenderBuffer, ULGPUState, ULCommand and
ULCommandList use default alignment and carry compiler-inserted padding. -/
theorem boundary_struct_packing :
    (declaredPacked gpuDriverHeader "RenderBuffer" = true ∧
     declaredPacked gpuDriverHeader "Vertex_2f_4ub_2f" = true ∧
     declaredPacked gpuDriverHeader "Vertex_2f_4ub_2f_2f_28f" = true ∧
     declaredPacked gpuDriverHeader "GPUState" = true ∧
     declaredPacked gpuDriverHeader "Command" = true ∧
     declaredPacked gpuDriverHeader "CommandList" = true) ∧
    (structSize gpuDriverHeader "RenderBuffer" = packedSize RenderBuffer_fields ∧
     structSize gpuDriverHeader "GPUState" = packedSize GPUState_fields ∧
     structSize gpuDriverHeader "Command" = packedSize Command_fields ∧
     structSize gpuDriverHeader "CommandList" = packedSize CommandList_fields) ∧
    (declaredPacked capiGPUDriverHeader "ULVertex_2f_4ub_2f" = true ∧
     declaredPacked capiGPUDriverHeader "ULVertex_2f_4ub_2f_2f_28f" = true ∧
     structSize capiGPUDriverHeader "ULVertex_2f_4ub_2f" = 20 ∧
     structSize capiGPUDriverHeader "ULVertex_2f_4ub_2f_2f_28f" = 140) ∧
    (declaredPacked capiGPUDriverHeader "ULRenderBuffer" = false ∧
     declaredPacked capiGPUDriverHeader "ULGPUState" = false ∧
     declaredPacked capiGPUDriverHeader "ULCommand" = false ∧
     declaredPacked capiGPUDriverHeader "ULCommandList" = false) ∧
    (structSize capiGPUDriverHeader "ULRenderBuffer" = 16 ∧
     structSize capiGPUDriverHeader "ULGPUState" = 788 ∧
     structSize capiGPUDriverHeader "ULCommand" = 804 ∧
     structSize capiGPUDriverHeader "ULCommandList" = 16) := by
  decide

/-- C8, counterexample: the 20-byte layout _2f_4ub_2f carries path geometry
(per the doc comments on VertexBufferFormat and Vertex_2f_4ub_2f), while the
Fill shader program fills quad geometry (per the doc comment on ShaderType),
so the 20-byte layout is not consumed by the Fill program. -/
theorem fill_layout_pairing_counterexample :
    ¬ consumedBy VertexBufferFormat._2f_4ub_2f ShaderType.Fill ∧
    packedSize (vertexFormatLayout VertexBufferFormat._2f_4ub_2f) = 20 := by
  decide

/-- C8, amended: the 20-byte layout _2f_4ub_2f is the path layout consumed
by the FillPath shader program, and the 140-byte layout _2f_4ub_2f_2f_28f
with texture coordinates and seven auxiliary vec4 slots is the quad layout
consumed by the Fill shader program. -/
theorem shader_layout_pairing :
    consumedBy VertexBufferFormat._2f_4ub_2f ShaderType.FillPath ∧
    consumedBy VertexBufferFormat._2f_4ub_2f_2f_28f ShaderType.Fill ∧
    packedSize (vertexFormatLayout VertexBufferFormat._2f_4ub_2f) = 20 ∧
    packedSize (vertexFormatLayout VertexBufferFormat._2f_4ub_2f_2f_28f) = 140 := by
  decide

/-- Running the protocol over an appended trace runs the two pieces in
sequence. -/
theorem protoRun_append (l₁ l₂ : List DriverCall) :
    ∀ s, protoRun s (l₁ ++ l₂) = (protoRun s l₁).bind fun s' => protoRun s' l₂ := by
  induction l₁ with
  | nil => intro s; simp [protoRun]
  | cons c t ih =>
      intro s
      simp only [List.cons_append, protoRun]
      cases protoStep s c with
      | none => simp
      | some s' => simpa using ih s'

/-- Every trace the protocol accepts from a given state down to Idle has the
shape RemShape describes for that state. -/
theorem remShape_of_protoRun :
    ∀ (t : List DriverCall) (s : SyncState),
      protoRun s t = some SyncState.idle → RemShape s t := by
  intro t
  induction t with
  | nil =>
      intro s h
      simp only [protoRun, Option.some.injEq] at h
      subst h
      exact ⟨[], rfl, by simp⟩
  | cons c t ih =>
      intro s h
      rw [protoRun] at h
      cases hstep : protoStep s c with
      | none => rw [hstep] at h; exact absurd h (by simp)
      | some s₀ =>
          rw [hstep] at h
          cases s with
          | idle =>
              cases c with
              | beginSynchronize =>
                  simp only [protoStep, Option.some.injEq] at hstep
                  subst hstep
                  obtain ⟨ms, l, cs, h1, h2, h3, hshape⟩ := ih SyncState.mutating h
                  refine ⟨⟨ms, l⟩ :: cs, ?_, ?_⟩
                  · subst hshape
                    simp [cyclesCalls, SyncCycle.calls]
                  · intro c hc
                    rcases List.mem_cons.mp hc with rfl | hc
                    · exact ⟨h1, h2⟩
                    · exact h3 c hc
              | endSynchronize => simp [protoStep] at hstep
              | mutate m => simp [protoStep] at hstep
              | updateCommandList l => simp [protoStep] at hstep
          | mutating =>
              cases c with
              | beginSynchronize => simp [protoStep] at hstep
              | endSynchronize => simp [protoStep] at hstep
              | mutate m =>
                  simp only [protoStep] at hstep
                  split at hstep
                  · next hwf =>
                      simp only [Option.some.injEq] at hstep
                      subst hstep
                      obtain ⟨ms, l, cs, h1, h2, h3, hshape⟩ := ih SyncState.mutating h
                      refine ⟨m :: ms, l, cs, ?_, h2, h3, ?_⟩
                      · intro x hx
                        rcases List.mem_cons.mp hx with rfl | hx
                        · exact hwf
                        · exact h1 x hx
                      · subst hshape; simp
                  · exact absurd hstep (by simp)
              | updateCommandList l =>
                  simp only [protoStep] at hstep
                  split at hstep
                  · next hwf =>
                      simp only [Option.some.injEq] at hstep
                      subst hstep
                      obtain ⟨cs, h3, hshape⟩ := ih SyncState.delivered h
                      exact ⟨[], l, cs, by simp, hwf, h3, by subst hshape; simp⟩
                  · exact absurd hstep (by simp)
          | delivered =>
              cases c with
              | beginSynchronize => simp [protoStep] at hstep
              | endSynchronize =>
                  simp only [protoStep, Option.some.injEq] at hstep
                  subst hstep
                  obtain ⟨cs, hshape, h3⟩ := ih SyncState.idle h
                  exact ⟨cs, h3, by rw [hshape]⟩
              | mutate m => simp [protoStep] at hstep
              | updateCommandList l => simp [protoStep] at hstep

/-- C3: every accepted trace is a concatenation of complete synchronization
cycles, each consisting of one BeginSynchronize, the resource mutations of
the cycle, exactly one UpdateCommandList after all of those mutations, and
one closing EndSynchronize; consequently every resource mutation occurs
strictly between the Begin and End of its cycle.  Moreover BeginSynchronize
is never accepted while the protocol is already synchronizing: before every
BeginSynchronize of an accepted trace the protocol has returned to Idle. -/
theorem sync_protocol_cycles (t : List DriverCall) (h : Accepted t) :
    (∃ cs : List SyncCycle, t = cyclesCalls cs ∧ ∀ c ∈ cs, c.WF) ∧
    ∀ i, t.get? i = some DriverCall.beginSynchronize →
      protoRun SyncState.idle (t.take i) = some SyncState.idle := by
  have h0 : protoRun SyncState.idle t = some SyncState.idle := h
  constructor
  · exact remShape_of_protoRun t SyncState.idle h0
  · intro i hi
    obtain ⟨hlt, hget⟩ := List.get?_eq_some.mp hi
    have hsplit : t = t.take i ++ DriverCall.beginSynchronize :: t.drop (i + 1) := by
      conv_lhs => rw [← List.take_append_drop i t]
      rw [List.drop_eq_get_cons hlt, hget]
    rw [hsplit, protoRun_append] at h0
    cases hpre : protoRun SyncState.idle (t.take i) with
    | none => rw [hpre] at h0; simp at h0
    | some s =>
        rw [hpre] at h0
        simp only [Option.some_bind] at h0
        rw [protoRun] at h0
        cases s with
        | idle => rfl
        | mutating => simp [protoStep] at h0
        | delivered => simp [protoStep] at h0

/-- C3, witness: a concrete accepted trace, decomposed into its cycles by
the theorem. -/
theorem sync_protocol_cycles_witness :
    ∃ cs : List SyncCycle, exTrace = cyclesCalls cs ∧ ∀ c ∈ cs, c.WF :=
  (sync_protocol_cycles exTrace (by decide)).1

/-- Every command list a successful protocol run delivers passes the
wellformedness check of the UpdateCommandList step. -/
theorem deliveredLists_wf :
    ∀ (t : List DriverCall) (s s' : SyncState), protoRun s t = some s' →
      ∀ l ∈ deliveredLists t, l.all wellFormedCommand = true := by
  intro t
  induction t with
  | nil => intro s s' _ l hl; simp [deliveredLists] at hl
  | cons c t ih =>
      intro s s' h l hl
      rw [protoRun] at h
      cases hstep : protoStep s c with
      | none => rw [hstep] at h; exact absurd h (by simp)
      | some s₀ =>
          rw [hstep] at h
          cases c with
          | updateCommandList l0 =>
              have hl' : l = l0 ∨ l ∈ deliveredLists t := by
                simpa [deliveredLists] using hl
              rcases hl' with rfl | hl'
              · cases s with
                | idle => simp [protoStep] at hstep
                | delivered => simp [protoStep] at hstep
                | mutating =>
                    simp only [protoStep] at hstep
                    split at hstep
                    · next hwf => exact hwf
                    · exact absurd hstep (by simp)
              · exact ih s₀ s' h l hl'
          | beginSynchronize =>
              exact ih s₀ s' h l (by simpa [deliveredLists] using hl)
          | endSynchronize =>
              exact ih s₀ s' h l (by simpa [deliveredLists] using hl)
          | mutate m =>
              exact ih s₀ s' h l (by simpa [deliveredLists] using hl)

/-- Every mutation a successful protocol run accepts passes the
wellformedness check of the mutate step. -/
theorem mutations_wf :
    ∀ (t : List DriverCall) (s s' : SyncState), protoRun s t = some s' →
      ∀ m, DriverCall.mutate m ∈ t → wellFormedMutation m = true := by
  intro t
  induction t with
  | nil => intro s s' _ m hm; simp at hm
  | cons c t ih =>
      intro s s' h m hm
      rw [protoRun] at h
      cases hstep : protoStep s c with
      | none => rw [hstep] at h; exact absurd h (by simp)
      | some s₀ =>
          rw [hstep] at h
          rcases List.mem_cons.mp hm with heq | hm'
          · subst heq
            cases s with
            | idle => simp [protoStep] at hstep
            | delivered => simp [protoStep] at hstep
            | mutating =>
                simp only [protoStep] at hstep
                split at hstep
                · next hwf => exact hwf
                · exact absurd hstep (by simp)
          · exact ih s₀ s' h m hm'

/-- C9: every GPUState carried by a command of a command list delivered
through UpdateCommandList in an accepted trace satisfies clip_size at most
8, and the clip entries at indices at or beyond clip_size never affect
execution: any GPU state with the same clip_size and the same clip entries
below clip_size yields the same clip uniforms for the pixel shader. -/
theorem gpustate_clip_bound (t : List DriverCall) (l : List Command) (c : Command)
    (ht : Accepted t) (hl : l ∈ deliveredLists t) (hc : c ∈ l) :
    c.gpu_state.clip_size ≤ 8 ∧
    ∀ s' : GPUState, s'.clip_size = c.gpu_state.clip_size →
      (∀ i, i < c.gpu_state.clip_size → s'.clip.get? i = c.gpu_state.clip.get? i) →
      shaderClipUniforms s' = shaderClipUniforms c.gpu_state := by
  constructor
  · have hall := deliveredLists_wf t SyncState.idle SyncState.idle ht l hl
    have hc' := List.all_eq_true.mp hall c hc
    have hb : wellFormedState c.gpu_state = true := hc'
    unfold wellFormedState at hb
    exact of_decide_eq_true (Bool.and_elim_left hb)
  · intro s' h1 h2
    unfold shaderClipUniforms
    rw [h1]
    apply List.ext_get?
    intro i
    by_cases hi : i < c.gpu_state.clip_size
    · rw [List.get?_take hi, List.get?_take hi, h2 i hi]
    · have hge : c.gpu_state.clip_size ≤ i := Nat.le_of_not_lt hi
      have e1 : (s'.clip.take c.gpu_state.clip_size).get? i = none := by
        apply List.get?_eq_none.mpr
        calc (s'.clip.take c.gpu_state.clip_size).length
            ≤ c.gpu_state.clip_size := by
              rw [List.length_take]; exact Nat.min_le_left _ _
          _ ≤ i := hge
      have e2 : (c.gpu_state.clip.take c.gpu_state.clip_size).get? i = none := by
        apply List.get?_eq_none.mpr
        calc (c.gpu_state.clip.take c.gpu_state.clip_size).length
            ≤ c.gpu_state.clip_size := by
              rw [List.length_take]; exact Nat.min_le_left _ _
          _ ≤ i := hge
      rw [e1, e2]

/-- C9, witness: the clip bound holds for a concrete delivered command. -/
theorem gpustate_clip_bound_witness : (exClear 1).gpu_state.clip_size ≤ 8 :=
  (gpustate_clip_bound exTrace [exClear 1, exDraw 1 1] (exClear 1)
    (by decide) (by decide) (by decide)).1

/-- C10: every RenderBuffer descriptor passed to CreateRenderBuffer in an
accepted trace has has_stencil_buffer and has_depth_buffer false. -/
theorem renderbuffer_no_depth_stencil (t : List DriverCall) (id : Nat)
    (rb : RenderBuffer) (ht : Accepted t)
    (hm : DriverCall.mutate (Mutation.createRenderBuffer id rb) ∈ t) :
    rb.has_stencil_buffer = false ∧ rb.has_depth_buffer = false := by
  have h := mutations_wf t SyncState.idle SyncState.idle ht
    (Mutation.createRenderBuffer id rb) hm
  unfold wellFormedMutation at h
  rw [Bool.and_eq_true, Bool.not_eq_true', Bool.not_eq_true'] at h
  exact h

/-- C10, witness: the flags are false for the concrete descriptor created in
the example trace. -/
theorem renderbuffer_no_depth_stencil_witness :
    (⟨1, 800, 600, false, false⟩ : RenderBuffer).has_stencil_buffer = false ∧
      (⟨1, 800, 600, false, false⟩ : RenderBuffer).has_depth_buffer = false :=
  renderbuffer_no_depth_stencil exTrace 1 ⟨1, 800, 600, false, false⟩
    (by decide) (by decide)

/-- The id a Next call returns is the successor of the counter of its
kind. -/
theorem nextId_fst (a : IdAllocator) (k : ResourceKind) :
    (nextId a k).1 = counterOf a k + 1 := by
  cases k <;> rfl

/-- A Next call bumps exactly the counter of its own kind. -/
theorem counterOf_nextId (a : IdAllocator) (k k' : ResourceKind) :
    counterOf (nextId a k).2 k' =
      if k = k' then counterOf a k' + 1 else counterOf a k' := by
  cases k <;> cases k' <;> simp [nextId, counterOf]

/-- Running N Next calls of one kind from any allocator state returns the N
successors of the starting counter, in order. -/
theorem runNextIds_replicate (k : ResourceKind) :
    ∀ (N : Nat) (a : IdAllocator),
      (runNextIds a (List.replicate N k)).1 =
        (List.range N).map fun i => counterOf a k + i + 1 := by
  intro N
  induction N with
  | zero => intro a; simp [runNextIds]
  | succ n ih =>
      intro a
      rw [List.replicate_succ]
      simp only [runNextIds]
      rw [List.range_succ_eq_map]
      simp only [List.map_cons, List.map_map]
      congr 1
      · rw [nextId_fst]
      · rw [ih (nextId a k).2]
        have hc : counterOf (nextId a k).2 k = counterOf a k + 1 := by
          rw [counterOf_nextId]; simp
        rw [hc]
        congr 1
        funext i
        simp [Function.comp, Nat.succ_eq_add_one]
        omega

/-- C4: N successive Next calls of one resource kind return exactly the
values 1 to N, pairwise distinct, strictly increasing, never 0, and the
three counters are independent: a Next call of one kind does not change the
value the next call of another kind returns. -/
theorem next_ids_fresh (N : Nat) (k : ResourceKind) :
    (runNextIds IdAllocator.init (List.replicate N k)).1 =
      (List.range N).map (· + 1) ∧
    List.Pairwise (· < ·) (runNextIds IdAllocator.init (List.replicate N k)).1 ∧
    (0 : Nat) ∉ (runNextIds IdAllocator.init (List.replicate N k)).1 ∧
    (runNextIds IdAllocator.init (List.replicate N k)).1.Nodup ∧
    ∀ (a : IdAllocator) (k' : ResourceKind), k ≠ k' →
      (nextId (nextId a k).2 k').1 = (nextId a k').1 := by
  have hzero : counterOf IdAllocator.init k = 0 := by cases k <;> rfl
  have hrun : (runNextIds IdAllocator.init (List.replicate N k)).1 =
      (List.range N).map (· + 1) := by
    rw [runNextIds_replicate k N IdAllocator.init, hzero]
    simp
  refine ⟨hrun, ?_, ?_, ?_, ?_⟩
  · rw [hrun]
    exact List.pairwise_map.mpr
      ((List.pairwise_lt_range N).imp fun hab => Nat.succ_lt_succ hab)
  · rw [hrun]
    simp
  · rw [hrun]
    exact (List.nodup_range N).map fun a b hab => Nat.succ_injective hab
  · intro a k' hkk'
    rw [nextId_fst, nextId_fst, counterOf_nextId, if_neg hkk']

/-- C4, witness: three texture ids are 1, 2, 3, and a texture allocation
does not disturb the next geometry id. -/
theorem next_ids_fresh_witness :
    (runNextIds IdAllocator.init (List.replicate 3 ResourceKind.texture)).1 =
      [1, 2, 3] ∧
    (nextId (nextId IdAllocator.init ResourceKind.texture).2
        ResourceKind.geometry).1 =
      (nextId IdAllocator.init ResourceKind.geometry).1 := by
  refine ⟨?_, ?_⟩
  · rw [(next_ids_fresh 3 ResourceKind.texture).1]
    decide
  · exact (next_ids_fresh 3 ResourceKind.texture).2.2.2.2 IdAllocator.init
      ResourceKind.geometry (by decide)

/-- Indexing the full range of a list recovers the list. -/
theorem map_getD_range {α : Type} (l : List α) (d : α) :
    (List.range l.length).map (fun i => l.getD i d) = l := by
  induction l with
  | nil => rfl
  | cons a t ih =>
      rw [List.length_cons, List.range_succ_eq_map, List.map_cons, List.map_map]
      have hcomp : (fun i => (a :: t).getD i d) ∘ Nat.succ = fun i => t.getD i d := by
        funext i; rfl
      rw [hcomp, ih]
      rfl

/-- C5: for every command list and every render buffer id R, any conforming
backend schedule executes the commands whose gpu_state targets R exactly in
list order: the subsequence of the executed stream targeting R equals the
subsequence of the delivered list targeting R. -/
theorem commandlist_per_rb_order (l : List Command) (sched : List Nat) (R : Nat)
    (h : ConformingSchedule l sched) :
    (execution l sched).filter (fun c => rbOf c == R) =
      l.filter (fun c => rbOf c == R) := by
  obtain ⟨hperm, hpair⟩ := h
  have key : sched.filter (fun i => rbOf (l.getD i dfltCommand) == R) =
      (List.range l.length).filter (fun i => rbOf (l.getD i dfltCommand) == R) := by
    haveI : IsAntisymm Nat (· < ·) :=
      ⟨fun a b h1 h2 => absurd h2 (Nat.lt_asymm h1)⟩
    refine List.eq_of_perm_of_sorted (r := (· < ·))
      (hperm.filter (fun i => rbOf (l.getD i dfltCommand) == R)) ?_ ?_
    · have h1 := hpair.filter (fun i => rbOf (l.getD i dfltCommand) == R)
      refine h1.imp_of_mem ?_
      intro a b ha hb hab
      have hpa : (rbOf (l.getD a dfltCommand) == R) = true :=
        List.of_mem_filter (p := fun i => rbOf (l.getD i dfltCommand) == R) ha
      have hpb : (rbOf (l.getD b dfltCommand) == R) = true :=
        List.of_mem_filter (p := fun i => rbOf (l.getD i dfltCommand) == R) hb
      have ea : rbOf (l.getD a dfltCommand) = R := by simpa using hpa
      have eb : rbOf (l.getD b dfltCommand) = R := by simpa using hpb
      exact hab (ea.trans eb.symm)
    · exact (List.pairwise_lt_range _).filter _
  have hfm := List.filter_map (p := fun c => rbOf c == R)
    (fun i => l.getD i dfltCommand) sched
  have hfm' := List.filter_map (p := fun c => rbOf c == R)
    (fun i => l.getD i dfltCommand) (List.range l.length)
  calc (execution l sched).filter (fun c => rbOf c == R)
      = (sched.filter fun i => rbOf (l.getD i dfltCommand) == R).map
          (fun i => l.getD i dfltCommand) := hfm
    _ = ((List.range l.length).filter
          fun i => rbOf (l.getD i dfltCommand) == R).map
          (fun i => l.getD i dfltCommand) := by rw [key]
    _ = ((List.range l.length).map (fun i => l.getD i dfltCommand)).filter
          (fun c => rbOf c == R) := hfm'.symm
    _ = l.filter (fun c => rbOf c == R) := by rw [map_getD_range]

/-- C5, witness: a concrete three-command list drawn against two render
buffers, under a schedule that moves the command of the other render buffer
first, still executes the commands of render buffer 1 in list order. -/
theorem commandlist_per_rb_order_witness :
    (execution [exClear 1, exDraw 2 7, exDraw 1 9] [1, 0, 2]).filter
        (fun c => rbOf c == 1) =
      [exClear 1, exDraw 2 7, exDraw 1 9].filter (fun c => rbOf c == 1) :=
  commandlist_per_rb_order [exClear 1, exDraw 2 7, exDraw 1 9] [1, 0, 2] 1
    ⟨by decide, by decide⟩

/-- The entrywise definition of ulApplyProjection agrees with the abstract
matrix product of the orthographic projection and the transform. -/
theorem ulApplyProjection_eq_mul (t : Matrix (Fin 4) (Fin 4) ℚ) (w h : ℚ)
    (fy : Bool) :
    ulApplyProjection t w h fy = orthographicProjection w h fy * t := by
  ext i j
  rw [Matrix.mul_apply, Fin.sum_univ_four]
  fin_cases i <;>
    simp [ulApplyProjection, orthographicProjection, Matrix.vecHead,
      Matrix.vecTail]

/-- C6: ulApplyProjection is the pure function returning the orthographic
projection for the viewport multiplied by the caller transform: it equals
the matrix product, two calls on equal inputs return equal matrices, its
action on a vector is the projection applied after the transform, and on an
800 by 600 viewport without y-flip it maps the viewport origin, the
homogeneous point (0, 0, 0, 1), to the clip-space corner (-1, 1, 0, 1). -/
theorem ulApplyProjection_spec (t : Matrix (Fin 4) (Fin 4) ℚ) (w h : ℚ)
    (fy : Bool) :
    ulApplyProjection t w h fy = orthographicProjection w h fy * t ∧
    (∀ t' w' h' fy', t = t' → w = w' → h = h' → fy = fy' →
      ulApplyProjection t w h fy = ulApplyProjection t' w' h' fy') ∧
    (∀ v : Fin 4 → ℚ,
      (ulApplyProjection t w h fy).mulVec v =
        (orthographicProjection w h fy).mulVec (t.mulVec v)) ∧
    (ulApplyProjection 1 800 600 false).mulVec ![0, 0, 0, 1] =
      ![-1, 1, 0, 1] := by
  refine ⟨ulApplyProjection_eq_mul t w h fy, ?_, ?_, ?_⟩
  · intro t' w' h' fy' h1 h2 h3 h4
    rw [h1, h2, h3, h4]
  · intro v
    rw [ulApplyProjection_eq_mul, ← Matrix.mulVec_mulVec]
  · rw [ulApplyProjection_eq_mul, mul_one]
    funext i
    rw [Matrix.mulVec, Matrix.dotProduct, Fin.sum_univ_four]
    fin_cases i <;>
      simp [orthographicProjection, Matrix.vecHead, Matrix.vecTail]

/-- C6, witness: the theorem applied at the identity transform and the
800 by 600 viewport, with the determinism hypotheses discharged. -/
theorem ulApplyProjection_spec_witness :
    ulApplyProjection 1 800 600 false = ulApplyProjection 1 800 600 false :=
  (ulApplyProjection_spec 1 800 600 false).2.1 1 800 600 false rfl rfl rfl rfl

/-- C7: CreateTexture on an empty bitmap reads no pixel data and stores a
render-target-capable texture, and a subsequent CreateRenderBuffer backed by
that texture followed by executing a ClearRenderBuffer command succeeds
without reading any pixel data; CreateTexture on a non-empty bitmap stores a
deep copy of the pixel bytes before returning. -/
theorem createTexture_empty_rtt (st : BackendState) (id : Nat)
    (b : BitmapModel) :
    (b.IsEmpty = true →
      (backendCreateTexture st id b).2 = [] ∧
      ((backendCreateTexture st id b).1).textures.lookup id =
        some TextureStorage.rtt ∧
      ∀ rb_id rb, rb.texture_id = id →
        execClearRenderBuffer
            (backendCreateRenderBuffer (backendCreateTexture st id b).1 rb_id rb)
            rb_id =
          Except.ok []) ∧
    (b.IsEmpty = false →
      (backendCreateTexture st id b).2 = b.pixels.getD [] ∧
      ((backendCreateTexture st id b).1).textures.lookup id =
        some (TextureStorage.pixelBytes (b.pixels.getD []))) := by
  constructor
  · intro hempty
    refine ⟨?_, ?_, ?_⟩
    · simp [backendCreateTexture, hempty]
    · simp [backendCreateTexture, hempty, List.lookup]
    · intro rb_id rb hrb
      simp [backendCreateTexture, backendCreateRenderBuffer,
        execClearRenderBuffer, hempty, hrb, List.lookup]
  · intro hfull
    constructor
    · simp [backendCreateTexture, hfull]
    · simp [backendCreateTexture, hfull, List.lookup]

/-- C7, witness: the empty-bitmap path at concrete inputs, ending in a
successful clear that read no pixel data. -/
theorem createTexture_empty_rtt_witness :
    execClearRenderBuffer
        (backendCreateRenderBuffer
          (backendCreateTexture BackendState.emptyState 1 ⟨0, 0, none⟩).1 1
          ⟨1, 800, 600, false, false⟩)
        1 =
      Except.ok [] :=
  ((createTexture_empty_rtt BackendState.emptyState 1 ⟨0, 0, none⟩).1
    (by decide)).2.2 1 ⟨1, 800, 600, false, false⟩ rfl

end Ultralight
